import Mathlib

/-
Verification of the buffer-management and grid-indexing core of GPUSPH
(src/buffer.h and src/GlobalData.h), as a shallow embedding in Lean 4.

Modelling conventions:
* C `uint` (32-bit unsigned) arithmetic is modelled on `Nat` with explicit
  reduction modulo `UINT_SIZE = 2^32` exactly where the C code performs an
  arithmetic operation on `uint` operands; `int` values are modelled as `Int`.
* C `float`/`float3`/`float4` values are modelled as exact rationals: the
  properties under verification are about the flooring/hashing logic, not
  about rounding of floating-point operations.
* Pointers are modelled as `Option`-valued handles (`none` = `NULL`).
-/

/-- Size of the C `uint` value range: 2^32. -/
def UINT_SIZE : Nat := 4294967296

/-- Subtraction of C `uint` values (wrap-around modulo 2^32). -/
def usub (a b : Nat) : Nat :=
  (UINT_SIZE + a % UINT_SIZE - b % UINT_SIZE) % UINT_SIZE

/-- Buffer keys: the `flag_t` bitmask word used throughout GlobalData.h and
buffer.h (one distinct bit per quantity). -/
abbrev flag_t := Nat

/-- GenericBuffer (src/buffer.h lines 119-182): a type-specific array of `N`
buffers.  Each entry of `bufs` models one pointer `m_bufs[i]` of the C array
(`none` = `NULL`, an allocated array is abstracted as a `Nat` handle); the
length of `bufs` is the template parameter `N`.  `m_init` mirrors the memset
initialization value stored by the constructor. -/
structure GenericBuffer where
  bufs : List (Option Nat)
  m_init : Int := 0
  deriving DecidableEq

/-- get_buffer (src/buffer.h lines 158-165): return an (untyped) pointer to
the `idx` buffer if valid; `if (idx >= N) return NULL; return m_bufs[idx];`.
The returned pointer may itself be `NULL` when the slot is unallocated. -/
def GenericBuffer.get_buffer (b : GenericBuffer) (idx : Nat) : Option Nat :=
  if idx ≥ b.bufs.length then none
  else b.bufs.getD idx none

/-- get_element_size (src/buffer.h line 177): `sizeof(T)`; carried abstractly
as a per-buffer value is not needed by the claims, the array count is. -/
def GenericBuffer.get_array_count (b : GenericBuffer) : Nat :=
  b.bufs.length

/-- BufferList (src/buffer.h lines 212-286): a `std::map<flag_t,
AbstractBuffer*>` modelled as an association list whose keys are kept unique
by the insertion operation (map ordering is irrelevant to the claims). -/
abbrev BufferList := List (flag_t × GenericBuffer)

/-- BufferList::clear (src/buffer.h lines 218-226): the loop deletes every
owned buffer (a no-op on values in this embedding) and then empties the
mapping via `std::map::clear`. -/
def BufferList.clear (l : BufferList) : BufferList :=
  match l with
  | [] => []
  | _ :: rest => BufferList.clear rest

/-- BufferList::getBufferData (src/buffer.h lines 240-246): find the key in
the map; if present return `get_buffer(num)` of the stored buffer, otherwise
`NULL`. -/
def BufferList.getBufferData (l : BufferList) (key : flag_t) (num : Nat) : Option Nat :=
  match List.lookup key l with
  | some b => b.get_buffer num
  | none => none

/-- BufferList insertion, `operator<<` (src/buffer.h lines 275-284): if the
key is already in the map, throw a runtime error (before any mutation);
otherwise store the buffer under the key. -/
def BufferList.insertBuffer (l : BufferList) (key : flag_t) (buf : GenericBuffer) :
    Except String BufferList :=
  match List.lookup key l with
  | some _ => Except.error "trying to add a buffer for an already-available key!"
  | none => Except.ok ((key, buf) :: l)

/-- Vector of three C `int` components (vector_types.h `int3`). -/
structure int3 where
  x : Int
  y : Int
  z : Int
  deriving DecidableEq

/-- Vector of three C `uint` components (vector_types.h `uint3`). -/
structure uint3 where
  x : Nat
  y : Nat
  z : Nat
  deriving DecidableEq

/-- Vector of three C `float` components, modelled exactly as rationals
(vector_types.h `float3`). -/
structure float3 where
  x : ℚ
  y : ℚ
  z : ℚ
  deriving DecidableEq

/-- Vector of four C `float` components, modelled exactly as rationals
(vector_types.h `float4`). -/
structure float4 where
  x : ℚ
  y : ℚ
  z : ℚ
  w : ℚ
  deriving DecidableEq

/-- Next step for workers (src/GlobalData.h lines 55-89). -/
inductive CommandType where
  | IDLE | CALCHASH | SORT | CROP | REORDER | BUILDNEIBS | FORCES | EULER
  | DUMP | DUMP_CELLS | UPDATE_SEGMENTS | APPEND_EXTERNAL | UPDATE_EXTERNAL
  | MLS | SHEPARD | VORTICITY | SURFACE_PARTICLES | CALC_PROBES
  | CALC_TESTPOINTS | MF_INIT_GAMMA | MF_UPDATE_GAMMA | MF_UPDATE_POS
  | MF_CALC_BOUND_CONDITIONS | MF_UPDATE_BOUND_VALUES | SPS | MEAN_STRAIN
  | REDUCE_BODIES_FORCES | UPLOAD_MBDATA | UPLOAD_GRAVITY | UPLOAD_PLANES
  | UPLOAD_OBJECTS_CG | UPLOAD_OBJECTS_MATRICES | QUIT
  deriving DecidableEq

/-- 0 reserved as "no flags" (src/GlobalData.h line 101). -/
def NO_FLAGS : flag_t := 0

/-- Step flags growing from the bottom (src/GlobalData.h lines 107-110). -/
def INITIALIZATION_STEP : flag_t := 1

def INTEGRATOR_STEP_1 : flag_t := 2

def INTEGRATOR_STEP_2 : flag_t := 4

def LAST_DEFINED_STEP : flag_t := INTEGRATOR_STEP_2

/-- First bit available for buffer keys (src/GlobalData.h line 123):
`LAST_DEFINED_STEP << 1`. -/
def FIRST_DEFINED_BUFFER : flag_t := 8

/-- Modelled from the spec: the concrete buffer-key values live in
`define_buffers.h`, which is not under src/.  Per src/GlobalData.h lines
113-126 and spec sections 3 and 9, each quantity key is a distinct single
bit of the `flag_t` bitmask, growing upward from `FIRST_DEFINED_BUFFER`;
the keys are assigned here in the order they are listed in
`BUFFERS_ALL_DBL` (src/GlobalData.h lines 132-135). -/
def BUFFER_POS : flag_t := 8

def BUFFER_VEL : flag_t := 16

def BUFFER_INFO : flag_t := 32

def BUFFER_BOUNDELEMENTS : flag_t := 64

def BUFFER_GRADGAMMA : flag_t := 128

def BUFFER_VERTICES : flag_t := 256

def BUFFER_PRESSURE : flag_t := 512

def BUFFER_TKE : flag_t := 1024

def BUFFER_EPSILON : flag_t := 2048

def BUFFER_TURBVISC : flag_t := 4096

def BUFFER_STRAIN_RATE : flag_t := 8192

/-- All double buffers (src/GlobalData.h lines 132-135). -/
def BUFFERS_ALL_DBL : flag_t :=
  BUFFER_POS ||| BUFFER_VEL ||| BUFFER_INFO |||
  BUFFER_BOUNDELEMENTS ||| BUFFER_GRADGAMMA ||| BUFFER_VERTICES |||
  BUFFER_PRESSURE ||| BUFFER_TKE ||| BUFFER_EPSILON |||
  BUFFER_TURBVISC ||| BUFFER_STRAIN_RATE

/-- GlobalData (src/GlobalData.h lines 145-557).  The coordination state of
the simulation.  Host-side storage pointers that no claim touches (the
`s_h`-prefixed particle arrays, worker/synchronizer/writer pointers, rigid
body accumulators, moving-boundary and plane data) are omitted from the
model; `s_hDeviceMap` is modelled as the per-cell contents of the device
map array.  Field default values are only a notational convenience for
building concrete states; the C++ constructor is modelled separately by
`GlobalData.construct`. -/
structure GlobalData where
  devices : Nat := 0
  mpi_nodes : Nat := 0
  mpi_rank : Int := -1
  totDevices : Nat := 0
  totParticles : Nat := 0
  worldSize : float3 := ⟨0, 0, 0⟩
  worldOrigin : float3 := ⟨0, 0, 0⟩
  cellSize : float3 := ⟨1, 1, 1⟩
  gridSize : uint3 := ⟨0, 0, 0⟩
  nGridCells : Nat := 0
  s_hDeviceMap : Nat → Nat := fun _ => 0
  currentPosRead : Nat := 0
  currentPosWrite : Nat := 0
  currentVelRead : Nat := 0
  currentVelWrite : Nat := 0
  currentInfoRead : Nat := 0
  currentInfoWrite : Nat := 0
  currentBoundElementRead : Nat := 0
  currentBoundElementWrite : Nat := 0
  currentGradGammaRead : Nat := 0
  currentGradGammaWrite : Nat := 0
  currentVerticesRead : Nat := 0
  currentVerticesWrite : Nat := 0
  currentPressureRead : Nat := 0
  currentPressureWrite : Nat := 0
  currentTKERead : Nat := 0
  currentTKEWrite : Nat := 0
  currentEpsRead : Nat := 0
  currentEpsWrite : Nat := 0
  currentTurbViscRead : Nat := 0
  currentTurbViscWrite : Nat := 0
  currentStrainRateRead : Nat := 0
  currentStrainRateWrite : Nat := 0
  keep_going : Bool := true
  quit_request : Bool := false
  iterations : Nat := 0
  nextCommand : CommandType := CommandType.IDLE
  commandFlags : flag_t := NO_FLAGS
  only_internal : Bool := false
  nosave : Bool := false

/-- GlobalData constructor, `GlobalData(void)` (src/GlobalData.h lines
294-356).  It is modelled as a transformer of the indeterminate pre-state:
exactly the members named in the C++ initializer list (restricted to the
modelled fields) receive their initial values, every other member — in
particular all 22 `current*Read/Write` generation indices, the grid
geometry and the device map contents — keeps its arbitrary pre-state
value, faithfully to the C++ constructor, which does not mention them. -/
def GlobalData.construct (pre : GlobalData) : GlobalData :=
  { pre with
    devices := 0
    mpi_nodes := 0
    mpi_rank := -1
    totDevices := 0
    totParticles := 0
    nGridCells := 0
    keep_going := true
    quit_request := false
    iterations := 0
    nextCommand := CommandType.IDLE
    commandFlags := NO_FLAGS
    only_internal := false
    nosave := false }

/-- calcGridPosHost (src/GlobalData.h lines 359-373): coordinates of the
cell containing the particle at the given position,
`floor((pos - worldOrigin) / cellSize)` per axis, not clamped. -/
def GlobalData.calcGridPosHost (g : GlobalData) (px py pz : ℚ) : int3 :=
  ⟨⌊(px - g.worldOrigin.x) / g.cellSize.x⌋,
   ⌊(py - g.worldOrigin.y) / g.cellSize.y⌋,
   ⌊(pz - g.worldOrigin.z) / g.cellSize.z⌋⟩

/-- calcGridHashHost (src/GlobalData.h lines 376-388, both overloads
compute the same function): clamp each axis into `[0, gridSize.axis-1]`
(`min(max(0, c), gridSize.axis-1)`, with `gridSize.axis-1` computed in
`uint` arithmetic), then linearize `((z*sizeY)*sizeX) + y*sizeX + x` in
`uint` arithmetic. -/
def GlobalData.calcGridHashHost (g : GlobalData) (cellX cellY cellZ : Int) : Nat :=
  ((min (Int.toNat (max 0 cellZ)) (usub g.gridSize.z 1) * g.gridSize.y % UINT_SIZE
      * g.gridSize.x % UINT_SIZE
    + min (Int.toNat (max 0 cellY)) (usub g.gridSize.y 1) * g.gridSize.x % UINT_SIZE)
      % UINT_SIZE
    + min (Int.toNat (max 0 cellX)) (usub g.gridSize.x 1)) % UINT_SIZE

/-- calcGridPosFromHash (src/GlobalData.h lines 391-398): invert the
linearized hash by `uint` division and subtraction,
`z = h/(sizeX*sizeY)`, `y = (h - z*sizeX*sizeY)/sizeX`,
`x = h - y*sizeX - z*sizeX*sizeY`. -/
def GlobalData.calcGridPosFromHash (g : GlobalData) (particleHash : Nat) : uint3 :=
  let z := particleHash / (g.gridSize.x * g.gridSize.y % UINT_SIZE)
  let y := usub particleHash (z * g.gridSize.x % UINT_SIZE * g.gridSize.y % UINT_SIZE)
      / g.gridSize.x
  let x := usub (usub particleHash (y * g.gridSize.x % UINT_SIZE))
      (z * g.gridSize.x % UINT_SIZE * g.gridSize.y % UINT_SIZE)
  ⟨x, y, z⟩

/-- reverseGridHashHost (src/GlobalData.h lines 401-406): invert the
linearized hash, `cz = h/(sizeY*sizeX)`, `cy = (h - cz*sizeY*sizeX)/sizeX`,
`cx = h - cz*sizeY*sizeX - cy*sizeX`, returned as an `int3`. -/
def GlobalData.reverseGridHashHost (g : GlobalData) (cell_lin_idx : Nat) : int3 :=
  let cz := cell_lin_idx / (g.gridSize.y * g.gridSize.x % UINT_SIZE)
  let cy := usub cell_lin_idx (cz * g.gridSize.y % UINT_SIZE * g.gridSize.x % UINT_SIZE)
      / g.gridSize.x
  let cx := usub (usub cell_lin_idx (cz * g.gridSize.y % UINT_SIZE * g.gridSize.x % UINT_SIZE))
      (cy * g.gridSize.x % UINT_SIZE)
  ⟨Int.ofNat cx, Int.ofNat cy, Int.ofNat cz⟩

/-- calcGlobalDeviceIndex (src/GlobalData.h lines 409-418): global device
id of the cell holding `pos`; single-GPU/single-node shortcut returns 0,
otherwise reads the device map at the linearized cell index.  A pure
read-only function, as in the source. -/
def GlobalData.calcGlobalDeviceIndex (g : GlobalData) (pos : float4) : Nat :=
  if g.devices = 1 ∧ g.mpi_nodes = 1 then 0
  else
    let cellCoords := g.calcGridPosHost pos.x pos.y pos.z
    let linearizedCellIdx := g.calcGridHashHost cellCoords.x cellCoords.y cellCoords.z
    g.s_hDeviceMap linearizedCellIdx

/-- First statement of swapDeviceBuffers (src/GlobalData.h lines 421-425),
which swaps the (indices of) double buffers for positions and velocities
and optionally also pInfo:
`if (buffers & BUFFER_POS) std::swap(currentPosRead, currentPosWrite);`. -/
def swapBufferPos (g : GlobalData) (buffers : flag_t) : GlobalData :=
  if buffers &&& BUFFER_POS ≠ 0 then
    { g with currentPosRead := g.currentPosWrite, currentPosWrite := g.currentPosRead }
  else g

/-- Second statement of swapDeviceBuffers:
`if (buffers & BUFFER_VEL) std::swap(currentVelRead, currentVelWrite);`. -/
def swapBufferVel (g : GlobalData) (buffers : flag_t) : GlobalData :=
  if buffers &&& BUFFER_VEL ≠ 0 then
    { g with currentVelRead := g.currentVelWrite, currentVelWrite := g.currentVelRead }
  else g

/-- Third statement of swapDeviceBuffers:
`if (buffers & BUFFER_INFO) std::swap(currentInfoRead, currentInfoWrite);`. -/
def swapBufferInfo (g : GlobalData) (buffers : flag_t) : GlobalData :=
  if buffers &&& BUFFER_INFO ≠ 0 then
    { g with currentInfoRead := g.currentInfoWrite, currentInfoWrite := g.currentInfoRead }
  else g

/-- swapDeviceBuffers (src/GlobalData.h lines 421-425): the three
conditional swaps above, executed in sequence on the shared state. -/
def GlobalData.swapDeviceBuffers (g : GlobalData) (buffers : flag_t) : GlobalData :=
  swapBufferInfo (swapBufferVel (swapBufferPos g buffers) buffers) buffers

/-- Invariant on one read/write generation-index pair of a double-buffered
quantity (spec section 3, "Generation indices"): each index is 0 or 1 and
the two differ. -/
abbrev pairInv (r w : Nat) : Prop :=
  (r = 0 ∨ r = 1) ∧ (w = 0 ∨ w = 1) ∧ r ≠ w

/-- The double-buffer invariant over all eleven double-buffered quantities
of GlobalData (src/GlobalData.h lines 225-246). -/
abbrev dblBufferInvariant (g : GlobalData) : Prop :=
  pairInv g.currentPosRead g.currentPosWrite
  ∧ pairInv g.currentVelRead g.currentVelWrite
  ∧ pairInv g.currentInfoRead g.currentInfoWrite
  ∧ pairInv g.currentBoundElementRead g.currentBoundElementWrite
  ∧ pairInv g.currentGradGammaRead g.currentGradGammaWrite
  ∧ pairInv g.currentVerticesRead g.currentVerticesWrite
  ∧ pairInv g.currentPressureRead g.currentPressureWrite
  ∧ pairInv g.currentTKERead g.currentTKEWrite
  ∧ pairInv g.currentEpsRead g.currentEpsWrite
  ∧ pairInv g.currentTurbViscRead g.currentTurbViscWrite
  ∧ pairInv g.currentStrainRateRead g.currentStrainRateWrite

/-- A GlobalData state as left by the external initialization code (outside
src/): every double-buffer read index 0, every write index 1. -/
def gdInitialized : GlobalData :=
  { currentPosWrite := 1
    currentVelWrite := 1
    currentInfoWrite := 1
    currentBoundElementWrite := 1
    currentGradGammaWrite := 1
    currentVerticesWrite := 1
    currentPressureWrite := 1
    currentTKEWrite := 1
    currentEpsWrite := 1
    currentTurbViscWrite := 1
    currentStrainRateWrite := 1 }

/-- Concrete grid state used by the scenario claims: gridSize (4,4,4),
cellSize (1,1,1), worldOrigin (0,0,0), nGridCells 64. -/
def gdGrid4 : GlobalData :=
  { gridSize := ⟨4, 4, 4⟩
    nGridCells := 64
    cellSize := ⟨1, 1, 1⟩
    worldOrigin := ⟨0, 0, 0⟩ }

/-- Concrete multi-device state on the 4x4x4 grid: two devices on one node,
with a nontrivial device map. -/
def gdMulti : GlobalData :=
  { gridSize := ⟨4, 4, 4⟩
    nGridCells := 64
    cellSize := ⟨1, 1, 1⟩
    worldOrigin := ⟨0, 0, 0⟩
    devices := 2
    mpi_nodes := 1
    s_hDeviceMap := fun n => n % 2 }

/-- C6: inserting a buffer under a key already present in a BufferList
signals the runtime error immediately (the map is not touched, so the
existing binding survives), while inserting under an absent key succeeds,
binds the new buffer to the key, and changes no other binding. -/
theorem BufferList.insertBuffer_spec (l : BufferList) (key : flag_t) (buf : GenericBuffer) :
    ((List.lookup key l).isSome = true →
      BufferList.insertBuffer l key buf =
        Except.error "trying to add a buffer for an already-available key!")
    ∧ (List.lookup key l = none →
      BufferList.insertBuffer l key buf = Except.ok ((key, buf) :: l)
      ∧ List.lookup key ((key, buf) :: l) = some buf
      ∧ ∀ k2 : flag_t, k2 ≠ key → List.lookup k2 ((key, buf) :: l) = List.lookup k2 l) := by
  constructor
  · intro h
    unfold BufferList.insertBuffer
    cases hl : List.lookup key l with
    | none => rw [hl] at h; simp at h
    | some b => rfl
  · intro h
    refine ⟨by unfold BufferList.insertBuffer; rw [h], ?_, ?_⟩
    · simp [List.lookup]
    · intro k2 hk2
      have hb : (k2 == key) = false := beq_eq_false_iff_ne.mpr hk2
      simp [List.lookup, hb]

/-- C6 witness: with a buffer already stored under key 8, a second insertion
under key 8 errors out, while an insertion under the fresh key 16 succeeds. -/
theorem BufferList.insertBuffer_spec_witness :
    BufferList.insertBuffer [(8, GenericBuffer.mk [none] 0)] 8 (GenericBuffer.mk [some 1] 0) =
      Except.error "trying to add a buffer for an already-available key!"
    ∧ BufferList.insertBuffer [(8, GenericBuffer.mk [none] 0)] 16 (GenericBuffer.mk [some 1] 0) =
      Except.ok [(16, GenericBuffer.mk [some 1] 0), (8, GenericBuffer.mk [none] 0)] :=
  ⟨(BufferList.insertBuffer_spec [(8, GenericBuffer.mk [none] 0)] 8
      (GenericBuffer.mk [some 1] 0)).1 (by decide),
   ((BufferList.insertBuffer_spec [(8, GenericBuffer.mk [none] 0)] 16
      (GenericBuffer.mk [some 1] 0)).2 (by decide)).1⟩

/-- C7: out-of-range buffer indices and missing or unallocated buffers all
yield the absence value `none` (`NULL`) rather than faulting: `get_buffer`
with an index at or beyond the array count returns `none`;
`getBufferData` returns `none` when the key is absent from the list, and
also when the buffer stored under the key has only `NULL` array pointers. -/
theorem bufferAbsence_spec :
    (∀ (b : GenericBuffer) (idx : Nat), b.bufs.length ≤ idx →
      b.get_buffer idx = none)
    ∧ (∀ (l : BufferList) (key : flag_t) (num : Nat), List.lookup key l = none →
      BufferList.getBufferData l key num = none)
    ∧ (∀ (l : BufferList) (key : flag_t) (num : Nat) (b : GenericBuffer),
      List.lookup key l = some b → (∀ p ∈ b.bufs, p = none) →
      BufferList.getBufferData l key num = none) := by
  refine ⟨?_, ?_, ?_⟩
  · intro b idx h
    unfold GenericBuffer.get_buffer
    rw [if_pos h]
  · intro l key num h
    unfold BufferList.getBufferData
    rw [h]
  · intro l key num b hl hnull
    unfold BufferList.getBufferData
    rw [hl]
    show b.get_buffer num = none
    unfold GenericBuffer.get_buffer
    by_cases hi : num ≥ b.bufs.length
    · rw [if_pos hi]
    · rw [if_neg hi]
      push_neg at hi
      rw [List.getD_eq_getElem?_getD]
      rw [List.getElem?_eq_getElem hi]
      exact hnull _ (List.getElem_mem hi)

/-- C7 witness: index 5 of a 1-array buffer is absent; key 9 is absent from
the empty list; key 16 holding an unallocated 2-array buffer reads back as
absent. -/
theorem bufferAbsence_spec_witness :
    GenericBuffer.get_buffer (GenericBuffer.mk [some 1] 0) 5 = none
    ∧ BufferList.getBufferData [] 9 0 = none
    ∧ BufferList.getBufferData [(16, GenericBuffer.mk [none, none] 0)] 16 0 = none :=
  ⟨bufferAbsence_spec.1 (GenericBuffer.mk [some 1] 0) 5 (by decide),
   bufferAbsence_spec.2.1 [] 9 0 (by decide),
   bufferAbsence_spec.2.2 [(16, GenericBuffer.mk [none, none] 0)] 16 0
     (GenericBuffer.mk [none, none] 0) (by decide) (by decide)⟩

/-- C8: clear empties any BufferList, and a second clear on the result is
again the empty list (clear is idempotent and safe to repeat). -/
theorem BufferList.clear_idempotent (l : BufferList) :
    BufferList.clear l = ([] : BufferList)
    ∧ BufferList.clear (BufferList.clear l) = ([] : BufferList) := by
  have h : ∀ m : BufferList, BufferList.clear m = [] := by
    intro m
    induction m with
    | nil => rfl
    | cons p rest ih => unfold BufferList.clear; exact ih
  exact ⟨h l, by rw [h l]; exact h []⟩

/-- C1 counterexample: on a state whose pressure generation indices are
read 0 / write 1, calling swapDeviceBuffers with PRESSURE named in the flag
set does not exchange the pressure indices: BUFFER_PRESSURE is listed in
BUFFERS_ALL_DBL, yet the code only tests POS, VEL and INFO. -/
theorem swapDeviceBuffers_pressure_cex :
    ¬ ((gdInitialized.swapDeviceBuffers BUFFER_PRESSURE).currentPressureRead =
        gdInitialized.currentPressureWrite
      ∧ (gdInitialized.swapDeviceBuffers BUFFER_PRESSURE).currentPressureWrite =
        gdInitialized.currentPressureRead) := by
  decide

/-- Helper: evaluation of the conditional POS swap as a single field-wise
update. -/
theorem swapBufferPos_eval (g : GlobalData) (b : flag_t) :
    swapBufferPos g b =
      { g with
        currentPosRead :=
          if b &&& BUFFER_POS ≠ 0 then g.currentPosWrite else g.currentPosRead
        currentPosWrite :=
          if b &&& BUFFER_POS ≠ 0 then g.currentPosRead else g.currentPosWrite } := by
  unfold swapBufferPos
  by_cases h : b &&& BUFFER_POS ≠ 0
  · rw [if_pos h, if_pos h, if_pos h]
  · rw [if_neg h, if_neg h, if_neg h]

/-- Helper: evaluation of the conditional VEL swap as a single field-wise
update. -/
theorem swapBufferVel_eval (g : GlobalData) (b : flag_t) :
    swapBufferVel g b =
      { g with
        currentVelRead :=
          if b &&& BUFFER_VEL ≠ 0 then g.currentVelWrite else g.currentVelRead
        currentVelWrite :=
          if b &&& BUFFER_VEL ≠ 0 then g.currentVelRead else g.currentVelWrite } := by
  unfold swapBufferVel
  by_cases h : b &&& BUFFER_VEL ≠ 0
  · rw [if_pos h, if_pos h, if_pos h]
  · rw [if_neg h, if_neg h, if_neg h]

/-- Helper: evaluation of the conditional INFO swap as a single field-wise
update. -/
theorem swapBufferInfo_eval (g : GlobalData) (b : flag_t) :
    swapBufferInfo g b =
      { g with
        currentInfoRead :=
          if b &&& BUFFER_INFO ≠ 0 then g.currentInfoWrite else g.currentInfoRead
        currentInfoWrite :=
          if b &&& BUFFER_INFO ≠ 0 then g.currentInfoRead else g.currentInfoWrite } := by
  unfold swapBufferInfo
  by_cases h : b &&& BUFFER_INFO ≠ 0
  · rw [if_pos h, if_pos h, if_pos h]
  · rw [if_neg h, if_neg h, if_neg h]

/-- C1 (amended): swapDeviceBuffers exchanges the read and write generation
indices for exactly those of POS, VEL and INFO that are named in the flag
set, and leaves every other field of GlobalData — in particular the
generation indices of all other double-buffered quantities, even when named
in the set — unchanged. -/
theorem swapDeviceBuffers_spec (g : GlobalData) (buffers : flag_t) :
    g.swapDeviceBuffers buffers =
      { g with
        currentPosRead :=
          if buffers &&& BUFFER_POS ≠ 0 then g.currentPosWrite else g.currentPosRead
        currentPosWrite :=
          if buffers &&& BUFFER_POS ≠ 0 then g.currentPosRead else g.currentPosWrite
        currentVelRead :=
          if buffers &&& BUFFER_VEL ≠ 0 then g.currentVelWrite else g.currentVelRead
        currentVelWrite :=
          if buffers &&& BUFFER_VEL ≠ 0 then g.currentVelRead else g.currentVelWrite
        currentInfoRead :=
          if buffers &&& BUFFER_INFO ≠ 0 then g.currentInfoWrite else g.currentInfoRead
        currentInfoWrite :=
          if buffers &&& BUFFER_INFO ≠ 0 then g.currentInfoRead else g.currentInfoWrite } := by
  unfold GlobalData.swapDeviceBuffers
  rw [swapBufferPos_eval, swapBufferVel_eval, swapBufferInfo_eval]

/-- C2 counterexample: the GlobalData constructor does not initialize the
generation indices, so from a pre-state in which both position indices hold
0 the freshly constructed state still has read = write for POS (the C++
members are simply indeterminate after construction). -/
theorem construct_read_eq_write_cex :
    (GlobalData.construct {}).currentPosRead = (GlobalData.construct {}).currentPosWrite
    ∧ (GlobalData.construct {}).currentPosRead = 0 :=
  ⟨rfl, rfl⟩

/-- Helper: the conditional POS swap preserves the double-buffer
invariant. -/
theorem swapBufferPos_inv (g : GlobalData) (b : flag_t)
    (h : dblBufferInvariant g) : dblBufferInvariant (swapBufferPos g b) := by
  unfold swapBufferPos
  split
  · exact ⟨⟨h.1.2.1, h.1.1, Ne.symm h.1.2.2⟩, h.2⟩
  · exact h

/-- Helper: the conditional VEL swap preserves the double-buffer
invariant. -/
theorem swapBufferVel_inv (g : GlobalData) (b : flag_t)
    (h : dblBufferInvariant g) : dblBufferInvariant (swapBufferVel g b) := by
  unfold swapBufferVel
  split
  · exact ⟨h.1, ⟨h.2.1.2.1, h.2.1.1, Ne.symm h.2.1.2.2⟩, h.2.2⟩
  · exact h

/-- Helper: the conditional INFO swap preserves the double-buffer
invariant. -/
theorem swapBufferInfo_inv (g : GlobalData) (b : flag_t)
    (h : dblBufferInvariant g) : dblBufferInvariant (swapBufferInfo g b) := by
  unfold swapBufferInfo
  split
  · exact ⟨h.1, h.2.1, ⟨h.2.2.1.2.1, h.2.2.1.1, Ne.symm h.2.2.1.2.2⟩, h.2.2.2⟩
  · exact h

/-- Helper: one swapDeviceBuffers call preserves the double-buffer
invariant. -/
theorem swapDeviceBuffers_preserves_inv (g : GlobalData) (b : flag_t)
    (h : dblBufferInvariant g) : dblBufferInvariant (g.swapDeviceBuffers b) :=
  swapBufferInfo_inv _ _ (swapBufferVel_inv _ _ (swapBufferPos_inv _ _ h))

/-- C2 (amended): the constructor leaves the generation indices with their
indeterminate pre-state values; from any state in which every
double-buffered quantity has its read and write indices in {0,1} and
distinct — as established by the external initialization code, which is
outside src/ — every sequence of swapDeviceBuffers calls preserves that
invariant, so it holds at every point between completed steps. -/
theorem dblBufferInvariant_preserved (g : GlobalData) (cmds : List flag_t)
    (h : dblBufferInvariant g) :
    dblBufferInvariant (cmds.foldl GlobalData.swapDeviceBuffers g) := by
  induction cmds generalizing g with
  | nil => exact h
  | cons b rest ih => exact ih _ (swapDeviceBuffers_preserves_inv g b h)

/-- C2 witness: the fully initialized state satisfies the invariant and
keeps satisfying it across a concrete sequence of swaps. -/
theorem dblBufferInvariant_preserved_witness :
    dblBufferInvariant
      (List.foldl GlobalData.swapDeviceBuffers gdInitialized
        [BUFFERS_ALL_DBL, BUFFER_POS, BUFFER_VEL ||| BUFFER_INFO]) :=
  dblBufferInvariant_preserved gdInitialized
    [BUFFERS_ALL_DBL, BUFFER_POS, BUFFER_VEL ||| BUFFER_INFO] (by decide)

/-- Helper: in Nat, subtracting the division remainder complement yields the
modulus. -/
theorem sub_div_mul_mod (a n : Nat) : a - a / n * n = a % n := by
  have h := Nat.div_add_mod a n
  have h2 : a / n * n = n * (a / n) := Nat.mul_comm _ _
  omega

/-- Helper: uint subtraction coincides with Nat subtraction in the
non-wrapping range. -/
theorem usub_small (a b : Nat) (hb : b ≤ a) (ha : a < UINT_SIZE) : usub a b = a - b := by
  unfold usub UINT_SIZE at *
  omega

/-- Helper: a factor is bounded by the product with a positive factor on the
right. -/
theorem nat_le_mul_right (a b : Nat) (hb : 1 ≤ b) : a ≤ a * b := by
  calc a = a * 1 := by ring
    _ ≤ a * b := mul_le_mul_left' hb a

/-- Helper: a factor is bounded by the product with a positive factor on the
left. -/
theorem nat_le_mul_left (a b : Nat) (ha : 1 ≤ a) : b ≤ a * b := by
  calc b = 1 * b := by ring
    _ ≤ a * b := mul_le_mul_right' ha b

/-- Helper: the linearized cell index is below the cell count. -/
theorem linear_bound (sx sy sz a b c : Nat) (ha : a < sx) (hb : b < sy) (hc : c < sz) :
    c * sy * sx + b * sx + a < sx * sy * sz := by
  have e2 : c * sy * sx + b * sx + sx = (c * sy + b + 1) * sx := by ring
  have e3 : (c * sy + b + 1) * sx ≤ (c * sy + sy) * sx := mul_le_mul_right' (by omega) sx
  have e4 : (c * sy + sy) * sx = (c + 1) * (sy * sx) := by ring
  have e5 : (c + 1) * (sy * sx) ≤ sz * (sy * sx) := mul_le_mul_right' (by omega) (sy * sx)
  have e6 : sz * (sy * sx) = sx * sy * sz := by ring
  omega

/-- Helper: each summand of the linearization is bounded by the total. -/
theorem parts_le (A B a : Nat) : A ≤ A + B + a ∧ B ≤ A + B + a ∧ A + B ≤ A + B + a := by
  omega

/-- Helper: 2^31 is below the uint range. -/
theorem two_pow_31_lt : (2 : Nat) ^ 31 < UINT_SIZE := by
  norm_num [UINT_SIZE]

/-- Helper: closed form of calcGridHashHost when the grid is nondegenerate
and its cell count is int-representable — all `uint` wrap-arounds vanish and
the hash is the clamped linearization. -/
theorem calcGridHashHost_eval (g : GlobalData) (cellX cellY cellZ : Int)
    (h1 : 1 ≤ g.gridSize.x) (h2 : 1 ≤ g.gridSize.y) (h3 : 1 ≤ g.gridSize.z)
    (hp : g.gridSize.x * g.gridSize.y * g.gridSize.z < 2 ^ 31) :
    g.calcGridHashHost cellX cellY cellZ =
      min (Int.toNat (max 0 cellZ)) (g.gridSize.z - 1) * g.gridSize.y * g.gridSize.x
      + min (Int.toNat (max 0 cellY)) (g.gridSize.y - 1) * g.gridSize.x
      + min (Int.toNat (max 0 cellX)) (g.gridSize.x - 1) := by
  have hpU : g.gridSize.x * g.gridSize.y * g.gridSize.z < UINT_SIZE :=
    lt_trans hp two_pow_31_lt
  have hsx : g.gridSize.x < UINT_SIZE :=
    lt_of_le_of_lt (le_trans (nat_le_mul_right _ _ h2) (nat_le_mul_right _ _ h3)) hpU
  have hsy : g.gridSize.y < UINT_SIZE :=
    lt_of_le_of_lt (le_trans (nat_le_mul_left _ _ h1) (nat_le_mul_right _ _ h3)) hpU
  have hsz : g.gridSize.z < UINT_SIZE :=
    lt_of_le_of_lt (nat_le_mul_left _ _ (le_trans h1 (nat_le_mul_right _ _ h2))) hpU
  unfold GlobalData.calcGridHashHost
  rw [usub_small g.gridSize.x 1 h1 hsx, usub_small g.gridSize.y 1 h2 hsy,
    usub_small g.gridSize.z 1 h3 hsz]
  set a := min (Int.toNat (max 0 cellX)) (g.gridSize.x - 1) with hadef
  set b := min (Int.toNat (max 0 cellY)) (g.gridSize.y - 1) with hbdef
  set c := min (Int.toNat (max 0 cellZ)) (g.gridSize.z - 1) with hcdef
  have hax : a < g.gridSize.x := by
    have := min_le_right (Int.toNat (max 0 cellX)) (g.gridSize.x - 1)
    omega
  have hby : b < g.gridSize.y := by
    have := min_le_right (Int.toNat (max 0 cellY)) (g.gridSize.y - 1)
    omega
  have hcz : c < g.gridSize.z := by
    have := min_le_right (Int.toNat (max 0 cellZ)) (g.gridSize.z - 1)
    omega
  have hT : c * g.gridSize.y * g.gridSize.x + b * g.gridSize.x + a
      < g.gridSize.x * g.gridSize.y * g.gridSize.z :=
    linear_bound _ _ _ _ _ _ hax hby hcz
  have hTU : c * g.gridSize.y * g.gridSize.x + b * g.gridSize.x + a < UINT_SIZE :=
    lt_trans hT hpU
  obtain ⟨pA, pB, pAB⟩ := parts_le (c * g.gridSize.y * g.gridSize.x) (b * g.gridSize.x) a
  have m1 : c * g.gridSize.y % UINT_SIZE = c * g.gridSize.y :=
    Nat.mod_eq_of_lt
      (lt_of_le_of_lt (le_trans (nat_le_mul_right (c * g.gridSize.y) g.gridSize.x h1) pA) hTU)
  rw [m1]
  have m2 : c * g.gridSize.y * g.gridSize.x % UINT_SIZE = c * g.gridSize.y * g.gridSize.x :=
    Nat.mod_eq_of_lt (lt_of_le_of_lt pA hTU)
  rw [m2]
  have m3 : b * g.gridSize.x % UINT_SIZE = b * g.gridSize.x :=
    Nat.mod_eq_of_lt (lt_of_le_of_lt pB hTU)
  rw [m3]
  have m4 : (c * g.gridSize.y * g.gridSize.x + b * g.gridSize.x) % UINT_SIZE
      = c * g.gridSize.y * g.gridSize.x + b * g.gridSize.x :=
    Nat.mod_eq_of_lt (lt_of_le_of_lt pAB hTU)
  rw [m4]
  exact Nat.mod_eq_of_lt hTU

/-- Helper: closed form of reverseGridHashHost for a hash below the cell
count of a nondegenerate, int-representable grid: the mixed-radix digits of
the hash in z, y, x order. -/
theorem reverseGridHashHost_eval (g : GlobalData) (h : Nat)
    (h1 : 1 ≤ g.gridSize.x) (h2 : 1 ≤ g.gridSize.y) (h3 : 1 ≤ g.gridSize.z)
    (hp : g.gridSize.x * g.gridSize.y * g.gridSize.z < 2 ^ 31)
    (hh : h < g.gridSize.x * g.gridSize.y * g.gridSize.z) :
    g.reverseGridHashHost h =
      ⟨Int.ofNat (h % (g.gridSize.y * g.gridSize.x) % g.gridSize.x),
       Int.ofNat (h % (g.gridSize.y * g.gridSize.x) / g.gridSize.x),
       Int.ofNat (h / (g.gridSize.y * g.gridSize.x))⟩ := by
  have hpU : g.gridSize.x * g.gridSize.y * g.gridSize.z < UINT_SIZE :=
    lt_trans hp two_pow_31_lt
  have hhU : h < UINT_SIZE := lt_trans hh hpU
  have hyx_le : g.gridSize.y * g.gridSize.x ≤ g.gridSize.x * g.gridSize.y * g.gridSize.z := by
    have e : g.gridSize.y * g.gridSize.x = g.gridSize.x * g.gridSize.y := by ring
    rw [e]
    exact nat_le_mul_right _ _ h3
  have hyxU : g.gridSize.y * g.gridSize.x < UINT_SIZE := lt_of_le_of_lt hyx_le hpU
  simp only [GlobalData.reverseGridHashHost]
  rw [Nat.mod_eq_of_lt hyxU]
  have hcz_mul : h / (g.gridSize.y * g.gridSize.x) * g.gridSize.y * g.gridSize.x ≤ h := by
    rw [Nat.mul_assoc]
    exact Nat.div_mul_le_self h _
  have m1 : h / (g.gridSize.y * g.gridSize.x) * g.gridSize.y % UINT_SIZE
      = h / (g.gridSize.y * g.gridSize.x) * g.gridSize.y :=
    Nat.mod_eq_of_lt
      (lt_of_le_of_lt (le_trans (nat_le_mul_right _ _ h1) hcz_mul) hhU)
  rw [m1]
  have m2 : h / (g.gridSize.y * g.gridSize.x) * g.gridSize.y * g.gridSize.x % UINT_SIZE
      = h / (g.gridSize.y * g.gridSize.x) * g.gridSize.y * g.gridSize.x :=
    Nat.mod_eq_of_lt (lt_of_le_of_lt hcz_mul hhU)
  rw [m2]
  rw [usub_small h _ hcz_mul hhU]
  have key : h - h / (g.gridSize.y * g.gridSize.x) * g.gridSize.y * g.gridSize.x
      = h % (g.gridSize.y * g.gridSize.x) := by
    rw [Nat.mul_assoc]
    exact sub_div_mul_mod h _
  rw [key]
  have hmod_le : h % (g.gridSize.y * g.gridSize.x) ≤ h := Nat.mod_le h _
  have hmodU : h % (g.gridSize.y * g.gridSize.x) < UINT_SIZE := lt_of_le_of_lt hmod_le hhU
  have hcy_mul : h % (g.gridSize.y * g.gridSize.x) / g.gridSize.x * g.gridSize.x
      ≤ h % (g.gridSize.y * g.gridSize.x) := Nat.div_mul_le_self _ _
  have m3 : h % (g.gridSize.y * g.gridSize.x) / g.gridSize.x * g.gridSize.x % UINT_SIZE
      = h % (g.gridSize.y * g.gridSize.x) / g.gridSize.x * g.gridSize.x :=
    Nat.mod_eq_of_lt (lt_of_le_of_lt (le_trans hcy_mul hmod_le) hhU)
  rw [m3]
  rw [usub_small _ _ hcy_mul hmodU]
  rw [sub_div_mul_mod]

/-- Helper: closed form of calcGridPosFromHash for a hash below the cell
count of a nondegenerate, int-representable grid: the mixed-radix digits of
the hash in z, y, x order, with the x*y plane size. -/
theorem calcGridPosFromHash_eval (g : GlobalData) (h : Nat)
    (h1 : 1 ≤ g.gridSize.x) (h2 : 1 ≤ g.gridSize.y) (h3 : 1 ≤ g.gridSize.z)
    (hp : g.gridSize.x * g.gridSize.y * g.gridSize.z < 2 ^ 31)
    (hh : h < g.gridSize.x * g.gridSize.y * g.gridSize.z) :
    g.calcGridPosFromHash h =
      ⟨h % (g.gridSize.x * g.gridSize.y) % g.gridSize.x,
       h % (g.gridSize.x * g.gridSize.y) / g.gridSize.x,
       h / (g.gridSize.x * g.gridSize.y)⟩ := by
  have hpU : g.gridSize.x * g.gridSize.y * g.gridSize.z < UINT_SIZE :=
    lt_trans hp two_pow_31_lt
  have hhU : h < UINT_SIZE := lt_trans hh hpU
  have hxy_le : g.gridSize.x * g.gridSize.y ≤ g.gridSize.x * g.gridSize.y * g.gridSize.z :=
    nat_le_mul_right _ _ h3
  have hxyU : g.gridSize.x * g.gridSize.y < UINT_SIZE := lt_of_le_of_lt hxy_le hpU
  simp only [GlobalData.calcGridPosFromHash]
  rw [Nat.mod_eq_of_lt hxyU]
  have hz_mul : h / (g.gridSize.x * g.gridSize.y) * g.gridSize.x * g.gridSize.y ≤ h := by
    rw [Nat.mul_assoc]
    exact Nat.div_mul_le_self h _
  have m1 : h / (g.gridSize.x * g.gridSize.y) * g.gridSize.x % UINT_SIZE
      = h / (g.gridSize.x * g.gridSize.y) * g.gridSize.x :=
    Nat.mod_eq_of_lt
      (lt_of_le_of_lt (le_trans (nat_le_mul_right _ _ h2) hz_mul) hhU)
  rw [m1]
  have m2 : h / (g.gridSize.x * g.gridSize.y) * g.gridSize.x * g.gridSize.y % UINT_SIZE
      = h / (g.gridSize.x * g.gridSize.y) * g.gridSize.x * g.gridSize.y :=
    Nat.mod_eq_of_lt (lt_of_le_of_lt hz_mul hhU)
  rw [m2]
  rw [usub_small h _ hz_mul hhU]
  have key : h - h / (g.gridSize.x * g.gridSize.y) * g.gridSize.x * g.gridSize.y
      = h % (g.gridSize.x * g.gridSize.y) := by
    rw [Nat.mul_assoc]
    exact sub_div_mul_mod h _
  rw [key]
  have hmod_le : h % (g.gridSize.x * g.gridSize.y) ≤ h := Nat.mod_le h _
  have hcy_mul : h % (g.gridSize.x * g.gridSize.y) / g.gridSize.x * g.gridSize.x
      ≤ h % (g.gridSize.x * g.gridSize.y) := Nat.div_mul_le_self _ _
  have m3 : h % (g.gridSize.x * g.gridSize.y) / g.gridSize.x * g.gridSize.x % UINT_SIZE
      = h % (g.gridSize.x * g.gridSize.y) / g.gridSize.x * g.gridSize.x :=
    Nat.mod_eq_of_lt (lt_of_le_of_lt (le_trans hcy_mul hmod_le) hhU)
  rw [m3]
  rw [usub_small h _ (le_trans hcy_mul hmod_le) hhU]
  have houter : h / (g.gridSize.x * g.gridSize.y) * g.gridSize.x * g.gridSize.y
      ≤ h - h % (g.gridSize.x * g.gridSize.y) / g.gridSize.x * g.gridSize.x := by
    have hdm := Nat.div_add_mod h (g.gridSize.x * g.gridSize.y)
    have e : h / (g.gridSize.x * g.gridSize.y) * g.gridSize.x * g.gridSize.y
        = g.gridSize.x * g.gridSize.y * (h / (g.gridSize.x * g.gridSize.y)) := by ring
    omega
  have hsub_lt : h - h % (g.gridSize.x * g.gridSize.y) / g.gridSize.x * g.gridSize.x
      < UINT_SIZE := lt_of_le_of_lt (Nat.sub_le h _) hhU
  rw [usub_small _ _ houter hsub_lt]
  have final : h - h % (g.gridSize.x * g.gridSize.y) / g.gridSize.x * g.gridSize.x
      - h / (g.gridSize.x * g.gridSize.y) * g.gridSize.x * g.gridSize.y
      = h % (g.gridSize.x * g.gridSize.y) % g.gridSize.x := by
    have hdm := Nat.div_add_mod h (g.gridSize.x * g.gridSize.y)
    have hdm2 := sub_div_mul_mod (h % (g.gridSize.x * g.gridSize.y)) g.gridSize.x
    have e : h / (g.gridSize.x * g.gridSize.y) * g.gridSize.x * g.gridSize.y
        = g.gridSize.x * g.gridSize.y * (h / (g.gridSize.x * g.gridSize.y)) := by ring
    omega
  rw [final]

/-- Helper: mixed-radix digit extraction from the linearization. -/
theorem digits_of_linear (sx sy a b c : Nat) (ha : a < sx) (hb : b < sy) :
    (c * sy * sx + b * sx + a) / (sy * sx) = c
    ∧ (c * sy * sx + b * sx + a) % (sy * sx) / sx = b
    ∧ (c * sy * sx + b * sx + a) % (sy * sx) % sx = a := by
  have h0 : 0 < sx := by omega
  have hsy : 0 < sy := by omega
  have e1 : c * sy * sx + b * sx + a = (b * sx + a) + c * (sy * sx) := by ring
  have hr : b * sx + a < sy * sx := by
    have e : b * sx + sx = (b + 1) * sx := by ring
    have h2 : (b + 1) * sx ≤ sy * sx := mul_le_mul_right' (by omega) sx
    omega
  have e2 : b * sx + a = a + b * sx := by ring
  refine ⟨?_, ?_, ?_⟩
  · rw [e1, Nat.add_mul_div_right _ _ (Nat.mul_pos hsy h0), Nat.div_eq_of_lt hr]
    omega
  · rw [e1, Nat.add_mul_mod_self_right, Nat.mod_eq_of_lt hr, e2,
      Nat.add_mul_div_right _ _ h0, Nat.div_eq_of_lt ha]
    omega
  · rw [e1, Nat.add_mul_mod_self_right, Nat.mod_eq_of_lt hr, e2,
      Nat.add_mul_mod_self_right, Nat.mod_eq_of_lt ha]

/-- Helper: the clamp applied to an in-range nonnegative coordinate is the
identity. -/
theorem clamp_ofNat (n s : Nat) (hns : n < s) :
    min (Int.toNat (max 0 (Int.ofNat n))) (s - 1) = n := by
  rw [Int.ofNat_eq_natCast, max_eq_right (Int.natCast_nonneg n), Int.toNat_natCast]
  exact Nat.min_eq_left (by omega)

/-- C4: for every integer cell coordinate triple, in range or not,
calcGridHashHost equals the linearization of the per-axis clamp into
`[0, gridSize.axis - 1]`, and the result lies below nGridCells; the
hypotheses are the grid-geometry invariants (nonzero axes, nGridCells the
product of the axes, cell count within the int range so that the `uint`
arithmetic cannot wrap). -/
theorem calcGridHashHost_clamps_bounded (g : GlobalData)
    (h1 : 1 ≤ g.gridSize.x) (h2 : 1 ≤ g.gridSize.y) (h3 : 1 ≤ g.gridSize.z)
    (hn : g.nGridCells = g.gridSize.x * g.gridSize.y * g.gridSize.z)
    (hp : g.gridSize.x * g.gridSize.y * g.gridSize.z < 2 ^ 31) :
    ∀ cellX cellY cellZ : Int,
      g.calcGridHashHost cellX cellY cellZ =
        min (Int.toNat (max 0 cellZ)) (g.gridSize.z - 1) * g.gridSize.y * g.gridSize.x
        + min (Int.toNat (max 0 cellY)) (g.gridSize.y - 1) * g.gridSize.x
        + min (Int.toNat (max 0 cellX)) (g.gridSize.x - 1)
      ∧ g.calcGridHashHost cellX cellY cellZ < g.nGridCells := by
  intro cellX cellY cellZ
  have he := calcGridHashHost_eval g cellX cellY cellZ h1 h2 h3 hp
  refine ⟨he, ?_⟩
  rw [he, hn]
  refine linear_bound g.gridSize.x g.gridSize.y g.gridSize.z _ _ _ ?_ ?_ ?_
  · have := min_le_right (Int.toNat (max 0 cellX)) (g.gridSize.x - 1)
    omega
  · have := min_le_right (Int.toNat (max 0 cellY)) (g.gridSize.y - 1)
    omega
  · have := min_le_right (Int.toNat (max 0 cellZ)) (g.gridSize.z - 1)
    omega

/-- C4 witness: on the 4x4x4 grid the out-of-range cell (-5, 10, 2) still
hashes below nGridCells. -/
theorem calcGridHashHost_clamps_bounded_witness :
    gdGrid4.calcGridHashHost (-5) 10 2 < gdGrid4.nGridCells :=
  (calcGridHashHost_clamps_bounded gdGrid4 (by decide) (by decide) (by decide)
    (by decide) (by decide) (-5) 10 2).2

/-- C3: on a nondegenerate grid whose cell count is the product of the axes
and int-representable, reverseGridHashHost inverts calcGridHashHost on
every in-range cell coordinate triple, and calcGridHashHost inverts
reverseGridHashHost on every hash below nGridCells. -/
theorem gridHash_roundtrip (g : GlobalData)
    (h1 : 1 ≤ g.gridSize.x) (h2 : 1 ≤ g.gridSize.y) (h3 : 1 ≤ g.gridSize.z)
    (hn : g.nGridCells = g.gridSize.x * g.gridSize.y * g.gridSize.z)
    (hp : g.gridSize.x * g.gridSize.y * g.gridSize.z < 2 ^ 31) :
    (∀ x y z : Int, 0 ≤ x → x < (g.gridSize.x : Int) → 0 ≤ y → y < (g.gridSize.y : Int) →
      0 ≤ z → z < (g.gridSize.z : Int) →
      g.reverseGridHashHost (g.calcGridHashHost x y z) = ⟨x, y, z⟩)
    ∧ (∀ h : Nat, h < g.nGridCells →
      g.calcGridHashHost (g.reverseGridHashHost h).x (g.reverseGridHashHost h).y
        (g.reverseGridHashHost h).z = h) := by
  constructor
  · intro x y z hx0 hx1 hy0 hy1 hz0 hz1
    have ex : min (Int.toNat (max 0 x)) (g.gridSize.x - 1) = x.toNat := by
      rw [max_eq_right hx0]
      exact Nat.min_eq_left (by omega)
    have ey : min (Int.toNat (max 0 y)) (g.gridSize.y - 1) = y.toNat := by
      rw [max_eq_right hy0]
      exact Nat.min_eq_left (by omega)
    have ez : min (Int.toNat (max 0 z)) (g.gridSize.z - 1) = z.toNat := by
      rw [max_eq_right hz0]
      exact Nat.min_eq_left (by omega)
    have hash_eq : g.calcGridHashHost x y z =
        z.toNat * g.gridSize.y * g.gridSize.x + y.toNat * g.gridSize.x + x.toNat := by
      rw [calcGridHashHost_eval g x y z h1 h2 h3 hp, ex, ey, ez]
    have hbound : z.toNat * g.gridSize.y * g.gridSize.x + y.toNat * g.gridSize.x + x.toNat
        < g.gridSize.x * g.gridSize.y * g.gridSize.z :=
      linear_bound _ _ _ _ _ _ (by omega) (by omega) (by omega)
    rw [hash_eq, reverseGridHashHost_eval g _ h1 h2 h3 hp hbound]
    obtain ⟨d1, d2, d3⟩ :=
      digits_of_linear g.gridSize.x g.gridSize.y x.toNat y.toNat z.toNat
        (by omega) (by omega)
    rw [d1, d2, d3]
    simp only [int3.mk.injEq, Int.ofNat_eq_natCast]
    refine ⟨?_, ?_, ?_⟩ <;> omega
  · intro h hh
    rw [hn] at hh
    rw [reverseGridHashHost_eval g h h1 h2 h3 hp hh]
    rw [calcGridHashHost_eval g _ _ _ h1 h2 h3 hp]
    have bx : h % (g.gridSize.y * g.gridSize.x) % g.gridSize.x < g.gridSize.x :=
      Nat.mod_lt _ (by omega)
    have hyx : 0 < g.gridSize.y * g.gridSize.x := Nat.mul_pos (by omega) (by omega)
    have hmod : h % (g.gridSize.y * g.gridSize.x) < g.gridSize.y * g.gridSize.x :=
      Nat.mod_lt _ hyx
    have bz : h / (g.gridSize.y * g.gridSize.x) < g.gridSize.z := by
      rw [Nat.div_lt_iff_lt_mul hyx]
      have e : g.gridSize.z * (g.gridSize.y * g.gridSize.x)
          = g.gridSize.x * g.gridSize.y * g.gridSize.z := by ring
      omega
    have bY : h % (g.gridSize.y * g.gridSize.x) / g.gridSize.x < g.gridSize.y := by
      rw [Nat.div_lt_iff_lt_mul (by omega : 0 < g.gridSize.x)]
      exact hmod
    rw [clamp_ofNat _ _ bx, clamp_ofNat _ _ bY, clamp_ofNat _ _ bz]
    have k1 := Nat.div_add_mod h (g.gridSize.y * g.gridSize.x)
    have k2 := Nat.div_add_mod (h % (g.gridSize.y * g.gridSize.x)) g.gridSize.x
    have e1 : h / (g.gridSize.y * g.gridSize.x) * g.gridSize.y * g.gridSize.x
        = g.gridSize.y * g.gridSize.x * (h / (g.gridSize.y * g.gridSize.x)) := by ring
    have e2 : h % (g.gridSize.y * g.gridSize.x) / g.gridSize.x * g.gridSize.x
        = g.gridSize.x * (h % (g.gridSize.y * g.gridSize.x) / g.gridSize.x) := by ring
    omega

/-- C3 witness: on the 4x4x4 grid, cell (1,2,3) round-trips through the
hash, and hash 37 round-trips through the inverse. -/
theorem gridHash_roundtrip_witness :
    gdGrid4.reverseGridHashHost (gdGrid4.calcGridHashHost 1 2 3) = ⟨1, 2, 3⟩
    ∧ gdGrid4.calcGridHashHost (gdGrid4.reverseGridHashHost 37).x
      (gdGrid4.reverseGridHashHost 37).y (gdGrid4.reverseGridHashHost 37).z = 37 :=
  ⟨(gridHash_roundtrip gdGrid4 (by decide) (by decide) (by decide) (by decide)
      (by decide)).1 1 2 3 (by decide) (by decide) (by decide) (by decide)
      (by decide) (by decide),
   (gridHash_roundtrip gdGrid4 (by decide) (by decide) (by decide) (by decide)
      (by decide)).2 37 (by decide)⟩

/-- C10: the two independent hash-inversion helpers agree componentwise on
every hash below nGridCells (reverseGridHashHost returns the same cell as
calcGridPosFromHash, cast to int). -/
theorem hashInversions_agree (g : GlobalData)
    (h1 : 1 ≤ g.gridSize.x) (h2 : 1 ≤ g.gridSize.y) (h3 : 1 ≤ g.gridSize.z)
    (hn : g.nGridCells = g.gridSize.x * g.gridSize.y * g.gridSize.z)
    (hp : g.gridSize.x * g.gridSize.y * g.gridSize.z < 2 ^ 31) :
    ∀ h : Nat, h < g.nGridCells →
      g.reverseGridHashHost h =
        ⟨Int.ofNat (g.calcGridPosFromHash h).x, Int.ofNat (g.calcGridPosFromHash h).y,
         Int.ofNat (g.calcGridPosFromHash h).z⟩ := by
  intro h hh
  rw [hn] at hh
  rw [reverseGridHashHost_eval g h h1 h2 h3 hp hh,
    calcGridPosFromHash_eval g h h1 h2 h3 hp hh]
  have e : g.gridSize.y * g.gridSize.x = g.gridSize.x * g.gridSize.y := by ring
  rw [e]

/-- C10 witness: both inversions agree at hash 37 on the 4x4x4 grid. -/
theorem hashInversions_agree_witness :
    gdGrid4.reverseGridHashHost 37 =
      ⟨Int.ofNat (gdGrid4.calcGridPosFromHash 37).x,
       Int.ofNat (gdGrid4.calcGridPosFromHash 37).y,
       Int.ofNat (gdGrid4.calcGridPosFromHash 37).z⟩ :=
  hashInversions_agree gdGrid4 (by decide) (by decide) (by decide) (by decide)
    (by decide) 37 (by decide)

/-- C9: concrete scenario on the grid with gridSize (4,4,4), cellSize
(1,1,1), worldOrigin (0,0,0): position (3.5,3.5,3.5) falls in cell (3,3,3)
whose hash is 63, and position (10,0,0) falls in the unclamped cell
(10,0,0), which the hash clamps in x to 3, giving hash 3. -/
theorem gridScenario :
    gdGrid4.calcGridPosHost (7 / 2) (7 / 2) (7 / 2) = ⟨3, 3, 3⟩
    ∧ gdGrid4.calcGridHashHost 3 3 3 = 63
    ∧ gdGrid4.calcGridPosHost 10 0 0 = ⟨10, 0, 0⟩
    ∧ gdGrid4.calcGridHashHost (gdGrid4.calcGridPosHost 10 0 0).x
      (gdGrid4.calcGridPosHost 10 0 0).y (gdGrid4.calcGridPosHost 10 0 0).z = 3 := by
  have hpos1 : gdGrid4.calcGridPosHost (7 / 2) (7 / 2) (7 / 2) = ⟨3, 3, 3⟩ := by
    norm_num [GlobalData.calcGridPosHost, gdGrid4, int3.mk.injEq]
  have hpos2 : gdGrid4.calcGridPosHost 10 0 0 = ⟨10, 0, 0⟩ := by
    norm_num [GlobalData.calcGridPosHost, gdGrid4, int3.mk.injEq]
  refine ⟨hpos1, by decide, hpos2, ?_⟩
  rw [hpos2]
  decide

/-- C5: calcGlobalDeviceIndex returns the constant 0 when devices == 1 and
mpi_nodes == 1, and otherwise returns exactly the device-map entry at the
linearized hash of the cell containing the position; being a composition of
pure reads in the embedding, it performs no allocation or I/O. -/
theorem calcGlobalDeviceIndex_spec (g : GlobalData) (pos : float4) :
    (g.devices = 1 → g.mpi_nodes = 1 → g.calcGlobalDeviceIndex pos = 0)
    ∧ (¬(g.devices = 1 ∧ g.mpi_nodes = 1) →
      g.calcGlobalDeviceIndex pos =
        g.s_hDeviceMap
          (g.calcGridHashHost (g.calcGridPosHost pos.x pos.y pos.z).x
            (g.calcGridPosHost pos.x pos.y pos.z).y
            (g.calcGridPosHost pos.x pos.y pos.z).z)) := by
  constructor
  · intro hd hm
    unfold GlobalData.calcGlobalDeviceIndex
    rw [if_pos ⟨hd, hm⟩]
  · intro hnot
    unfold GlobalData.calcGlobalDeviceIndex
    rw [if_neg hnot]

/-- C5 witness: the single-device state short-circuits to 0, and the
two-device state reads the device map at the hashed cell of the position. -/
theorem calcGlobalDeviceIndex_spec_witness :
    GlobalData.calcGlobalDeviceIndex { gdGrid4 with devices := 1, mpi_nodes := 1 }
      ⟨1 / 2, 1 / 2, 1 / 2, 0⟩ = 0
    ∧ gdMulti.calcGlobalDeviceIndex ⟨1 / 2, 1 / 2, 1 / 2, 0⟩ =
      gdMulti.s_hDeviceMap
        (gdMulti.calcGridHashHost
          (gdMulti.calcGridPosHost (1 / 2) (1 / 2) (1 / 2)).x
          (gdMulti.calcGridPosHost (1 / 2) (1 / 2) (1 / 2)).y
          (gdMulti.calcGridPosHost (1 / 2) (1 / 2) (1 / 2)).z) :=
  ⟨(calcGlobalDeviceIndex_spec { gdGrid4 with devices := 1, mpi_nodes := 1 }
      ⟨1 / 2, 1 / 2, 1 / 2, 0⟩).1 rfl rfl,
   (calcGlobalDeviceIndex_spec gdMulti ⟨1 / 2, 1 / 2, 1 / 2, 0⟩).2 (by decide)⟩
